import Mathlib

/-!
Verification of the actix-jwt-auth-middleware token authority.

Shallow embedding of the crate's token authority (`src/authority.rs`), token
signer (`src/token_signer.rs`), JWT validation (`src/validate.rs`) and the
error-to-status mapping (`src/errors.rs`).

The cryptographic token codec is provided by the external `jwt_compact`
crate; following the specification it is treated as a pluggable capability
and modelled here as an HMAC-style scheme over a claims encoding, together
with the documented expiry rule `now > expiration + leeway` and
issued-at/expiry stamping.  Everything layered on top of that capability
(extraction precedence, the refresh state machine, cookie creation, error
dispatch) is translated directly from the Rust source.
-/

namespace ActixJwtAuth

/-- Modelled from the spec: `jwt_compact::TimeOptions` — an injected clock
(`now`) plus the configured leeway grace duration, both in seconds. -/
structure TimeOptions where
  now : Int
  leeway : Int
deriving DecidableEq

/-- `jwt_compact::Claims<C>`: the application-defined custom claims plus the
standard temporal fields stamped at creation time. -/
structure TokenClaims (C : Type) where
  custom : C
  issuedAt : Int
  expiration : Int
deriving DecidableEq

/-- Modelled from the spec: a structured stand-in for the compact token
string — the claims content together with the signature over it. -/
structure Jwt (C : Type) where
  claims : TokenClaims C
  sig : Nat
deriving DecidableEq

/-- Model of `jwt_compact::ParseError` (structural failure). -/
inductive ParseErr where
  | invalidTokenStructure
deriving DecidableEq

/-- Model of `jwt_compact::ValidationError`, keeping the variants the crate
dispatches on. -/
inductive VErr where
  | invalidSignature
  | expired
  | malformedClaims
deriving DecidableEq

/-- The errors `validate_jwt` can produce (`src/validate.rs` returns either a
parse error or a validation error, lifted into `AuthError` by `From`). -/
inductive JwtErr where
  | parse (e : ParseErr)
  | validation (e : VErr)
deriving DecidableEq

/-- Model of an `actix_web::Error` carried by the re-authorization hook:
only its identity (a code standing for the boxed error value) matters. -/
structure ActixError where
  code : Nat
deriving DecidableEq

/-- The crate-wide error type as used by `src/authority.rs`
(`AuthError::NoToken`, `NoTokenSigner`, `TokenParse`, `TokenValidation`,
`TokenCreation`, `RefreshAuthorizerDenied`, `RefreshAuthorizerCall`,
`Internal`). -/
inductive AuthError where
  | noToken
  | noTokenSigner
  | tokenParse (e : ParseErr)
  | tokenValidation (e : VErr)
  | tokenCreation
  | refreshAuthorizerDenied (e : ActixError)
  | refreshAuthorizerCall (e : ActixError)
  | internal (e : ActixError)
deriving DecidableEq

/-- Injective encoding of an integer timestamp into a natural. -/
def encInt (i : Int) : Nat := Nat.pair i.toNat (-i).toNat

/-- Modelled from the spec: serialization of a claims record, given a
serializer `encC` for the custom payload. -/
def encodeClaims {C : Type} (encC : C → Nat) (tc : TokenClaims C) : Nat :=
  Nat.pair (encC tc.custom) (Nat.pair (encInt tc.issuedAt) (encInt tc.expiration))

/-- Modelled from the spec: the pluggable signing capability
`sign(header, payload, signing_key) -> signature`, as an HMAC-style MAC
binding the key to the content. -/
def mac (key content : Nat) : Nat := Nat.pair key content

/-- Modelled from the spec: producing a signed token from stamped claims. -/
def signToken {C : Type} (key : Nat) (encC : C → Nat) (tc : TokenClaims C) : Jwt C :=
  ⟨tc, mac key (encodeClaims encC tc)⟩

/-- Modelled from the spec: signature verification — recompute the MAC over
the token's content with the verifying key and compare. -/
def verifySig {C : Type} (vk : Nat) (encC : C → Nat) (tok : Jwt C) : Bool :=
  tok.sig == mac vk (encodeClaims encC tok.claims)

/-- Modelled from the spec: `Claims::validate_expiration` of `jwt_compact` —
fails with `Expired` exactly when `now > expiration + leeway`. -/
def validate_expiration {C : Type} (tc : TokenClaims C) (opts : TimeOptions) :
    Except VErr Unit :=
  if opts.now > tc.expiration + opts.leeway then .error .expired else .ok ()

/-- `validate_jwt` from `src/validate.rs`: integrity check (the
`validator(...).validate` call) followed by `validate_expiration`, each
failure lifted into `AuthError`.  Structured tokens always parse, so the
`UntrustedToken::new` stage of the source cannot fail in this model. -/
def validate_jwt {C : Type} (tok : Jwt C) (vk : Nat) (encC : C → Nat)
    (opts : TimeOptions) : Except AuthError (TokenClaims C) :=
  if verifySig vk encC tok then
    match validate_expiration tok.claims opts with
    | .ok _ => .ok tok.claims
    | .error e => .error (.tokenValidation e)
  else .error (.tokenValidation .invalidSignature)

/-- `TokenSigner` from `src/token_signer.rs`: token names, lifetimes
(in seconds, unsigned as `std::time::Duration`), the signing key, the time
options, and the (modelled) serializer for the custom claims type. -/
structure TokenSigner (C : Type) where
  accessTokenName : String
  accessTokenLifetime : Nat
  refreshTokenName : String
  refreshTokenLifetime : Nat
  signingKey : Nat
  timeOptions : TimeOptions
  encC : C → Nat

/-- `TokenSigner::create_signed_token`: stamp the claims with
issued-at = now and expiration = now + lifetime (the
`set_duration_and_issuance` call), then sign.  The modelled signing
capability is total, so the `TokenCreation` failure branch of the source is
never taken here. -/
def create_signed_token {C : Type} (ts : TokenSigner C) (claims : C)
    (lifetime : Nat) : Except AuthError (Jwt C) :=
  let tokenClaims : TokenClaims C :=
    ⟨claims, ts.timeOptions.now, ts.timeOptions.now + lifetime⟩
  .ok (signToken ts.signingKey ts.encC tokenClaims)

/-- A cookie as produced by `TokenSigner::create_cookie`: a name and the
signed token as its value. -/
structure Cookie (C : Type) where
  name : String
  token : Jwt C
deriving DecidableEq

/-- `TokenSigner::create_cookie`. -/
def create_cookie {C : Type} (ts : TokenSigner C) (claims : C) (name : String)
    (lifetime : Nat) : Except AuthError (Cookie C) :=
  match create_signed_token ts claims lifetime with
  | .ok tok => .ok ⟨name, tok⟩
  | .error e => .error e

/-- `TokenSigner::create_access_cookie`. -/
def create_access_cookie {C : Type} (ts : TokenSigner C) (claims : C) :
    Except AuthError (Cookie C) :=
  create_cookie ts claims ts.accessTokenName ts.accessTokenLifetime

/-- `TokenSigner::create_refresh_cookie`. -/
def create_refresh_cookie {C : Type} (ts : TokenSigner C) (claims : C) :
    Except AuthError (Cookie C) :=
  create_cookie ts claims ts.refreshTokenName ts.refreshTokenLifetime

/-- An incoming `ServiceRequest` as the authority reads it: decoded query
parameters, headers (a header value is `none` when `HeaderValue::to_str`
fails on it, i.e. it is not valid visible ASCII), and cookies. -/
structure Request where
  queryParams : List (String × String)
  headers : List (String × Option String)
  cookies : List (String × String)

/-- First association for a key, as `HeaderMap::get`, cookie lookup and the
query-parameter `find` all return the first match. -/
def assocLookup {α : Type} (l : List (String × α)) (k : String) : Option α :=
  (l.find? (fun p => p.1 == k)).map Prod.snd

/-- `ServiceRequest::cookie`. -/
def Request.cookie (req : Request) (name : String) : Option String :=
  assocLookup req.cookies name

/-- The type of the token-validation capability the authority composes with:
`validate_jwt` applied to the authority's algorithm, verifying key and time
options, as a function of the raw token string found in the request.
`src/validate.rs` only ever produces parse or validation errors, which the
codomain records. -/
abbrev Vjwt (C : Type) : Type := String → Except JwtErr (TokenClaims C)

/-- The `From` conversions of `src/errors.rs` that lift `validate_jwt`
failures into `AuthError`. -/
def JwtErr.toAuthError : JwtErr → AuthError
  | .parse e => .tokenParse e
  | .validation e => .tokenValidation e

/-- Lift a `validate_jwt` result into an `AuthResult`. -/
def liftJwtResult {C : Type} (r : Except JwtErr (TokenClaims C)) :
    Except AuthError (TokenClaims C) :=
  match r with
  | .ok t => .ok t
  | .error e => .error e.toAuthError

/-- `Authority` from `src/authority.rs`: the configuration fields the
verification path reads. -/
structure Authority (C : Type) where
  accessTokenName : String
  renewAccessTokenAutomatically : Bool
  refreshTokenName : String
  renewRefreshTokenAutomatically : Bool
  enableHeaderTokens : Bool
  enableAuthorizationHeader : Bool
  enableQueryTokens : Bool
  enableCookieTokens : Bool
  tokenSigner : Option (TokenSigner C)

/-- `Authority::get_token_from_query`: find the first query parameter with
the token's name and validate its value; absence is `NoToken`. -/
def get_token_from_query {C : Type} (vjwt : Vjwt C) (req : Request)
    (paramName : String) : Except AuthError (TokenClaims C) :=
  match assocLookup req.queryParams paramName with
  | some tokenValue => liftJwtResult (vjwt tokenValue)
  | none => .error .noToken

/-- `Authority::get_token_from_header_value`: a present, string-convertible
header value is validated; a missing header or a conversion failure is
`NoToken`. -/
def get_token_from_header_value {C : Type} (vjwt : Vjwt C)
    (headers : List (String × Option String)) (headerKey : String) :
    Except AuthError (TokenClaims C) :=
  match assocLookup headers headerKey with
  | some (some tokenValue) => liftJwtResult (vjwt tokenValue)
  | some none => .error .noToken
  | none => .error .noToken

/-- Rust's `str::trim`: drop whitespace from both ends (written over the
character list so that it computes by kernel reduction; Rust trims the full
Unicode whitespace class, of which the claims here only exercise ASCII). -/
def rustTrim (s : String) : String :=
  ⟨((s.data.dropWhile Char.isWhitespace).reverse.dropWhile
      Char.isWhitespace).reverse⟩

/-- The string computation inside
`Authority::get_token_from_authorization_header`: when
`strip_prefix("Bearer")` matches (the first six characters are exactly the
literal `Bearer`), the value handed to validation is `header_value.trim()`
— the trimmed ORIGINAL header value, exactly as the source computes it;
otherwise the token counts as absent. -/
def authorization_header_token_value (headerValue : String) : Option String :=
  if headerValue.data.take 6 == "Bearer".data then some (rustTrim headerValue)
  else none

/-- `Authority::get_token_from_authorization_header`. -/
def get_token_from_authorization_header {C : Type} (vjwt : Vjwt C)
    (headers : List (String × Option String)) :
    Except AuthError (TokenClaims C) :=
  match assocLookup headers "authorization" with
  | some (some headerValue) =>
    match authorization_header_token_value headerValue with
    | some tokenValue => liftJwtResult (vjwt tokenValue)
    | none => .error .noToken
  | some none => .error .noToken
  | none => .error .noToken

/-- `Authority::get_token_from_cookie`. -/
def get_token_from_cookie {C : Type} (vjwt : Vjwt C) (req : Request)
    (cookieName : String) : Except AuthError (TokenClaims C) :=
  match req.cookie cookieName with
  | some tokenValue => liftJwtResult (vjwt tokenValue)
  | none => .error .noToken

/-- The `continue_if_matches_err_variant!` macro from
`src/helper_macros.rs`, specialised as `validate_token` uses it: return on
`Ok`, fall through on `Err(NoToken)`, return any other error. -/
def continueIfNoToken {α : Type} (r : Except AuthError α)
    (rest : Except AuthError α) : Except AuthError α :=
  match r with
  | .ok v => .ok v
  | .error .noToken => rest
  | .error e => .error e

/-- `Authority::validate_token`: try the enabled sources in the source's
order — query parameters, then the custom header, then the Authorization
header, then cookies — falling through only on `NoToken`, and produce
`NoToken` when every enabled source is exhausted. -/
def validate_token {C : Type} (a : Authority C) (vjwt : Vjwt C)
    (req : Request) (tokenName : String) : Except AuthError (TokenClaims C) :=
  let afterAll : Except AuthError (TokenClaims C) := .error .noToken
  let cookieStep :=
    if a.enableCookieTokens then
      continueIfNoToken (get_token_from_cookie vjwt req tokenName) afterAll
    else afterAll
  let authStep :=
    if a.enableAuthorizationHeader then
      continueIfNoToken (get_token_from_authorization_header vjwt req.headers)
        cookieStep
    else cookieStep
  let headerStep :=
    if a.enableHeaderTokens then
      continueIfNoToken (get_token_from_header_value vjwt req.headers tokenName)
        authStep
    else authStep
  if a.enableQueryTokens then
    continueIfNoToken (get_token_from_query vjwt req tokenName) headerStep
  else headerStep

/-- `Authority::validate_access_token`. -/
def validate_access_token {C : Type} (a : Authority C) (vjwt : Vjwt C)
    (req : Request) : Except AuthError (TokenClaims C) :=
  validate_token a vjwt req a.accessTokenName

/-- `Authority::validate_refresh_token`. -/
def validate_refresh_token {C : Type} (a : Authority C) (vjwt : Vjwt C)
    (req : Request) : Except AuthError (TokenClaims C) :=
  validate_token a vjwt req a.refreshTokenName

/-- `Authority::call_refresh_authorizer`: resolve the hook's extractor
arguments (`Args::from_request`), then call the hook; an extractor failure
is `RefreshAuthorizerCall`, a hook rejection is `RefreshAuthorizerDenied`
wrapping the hook's reason. -/
def call_refresh_authorizer {A : Type} (argsResult : Except ActixError A)
    (hook : A → Except ActixError Unit) : Except AuthError Unit :=
  match argsResult with
  | .ok args =>
    match hook args with
    | .ok _ => .ok ()
    | .error e => .error (.refreshAuthorizerDenied e)
  | .error e => .error (.refreshAuthorizerCall e)

/-- `TokenUpdate` from `src/authority.rs`. -/
structure TokenUpdate (C : Type) where
  accessCookie : Option (Cookie C)
  refreshCookie : Option (Cookie C)
deriving DecidableEq

/-- Observable outcome of one `verify_service_request` run: the returned
`AuthResult<Option<TokenUpdate>>` together with the claims inserted into the
request's extensions (if any), or a panic raised by one of the `expect`
calls in the source. -/
inductive RunResult (C : Type) where
  | res (out : Except AuthError (Option (TokenUpdate C))) (injected : Option C)
  | panicked

/-- Rust's `Option::expect`: continue with the value, panic on `None`. -/
def expectSome {C α : Type} (o : Option α) (k : α → RunResult C) : RunResult C :=
  match o with
  | some v => k v
  | none => .panicked

/-- `extract_claims_unsafe` from `src/authority.rs` (spelled `unchecked`
here): parse the raw cookie value as an untrusted token and deserialize its
custom claims without verifying signature or expiry.  `parseUnchecked`
stands for `UntrustedToken::new` composed with
`deserialize_claims_unchecked`; `none` means one of the two `expect`ed
steps failed, which panics at the call site. -/
def extract_claims_unchecked {C : Type} (parseUnchecked : String → Option C)
    (tokenValue : String) : Option C :=
  parseUnchecked tokenValue

/-- The refresh branch of `Authority::verify_service_request`
(`src/authority.rs` lines 232-255): gate on the re-authorization hook, then
dispatch on the refresh-token validation result and the presence of a token
signer, in the source's match-arm order. -/
def refresh_branch {C A : Type} (a : Authority C) (vjwt : Vjwt C)
    (argsResult : Except ActixError A) (hook : A → Except ActixError Unit)
    (parseUnchecked : String → Option C) (req : Request) : RunResult C :=
  match call_refresh_authorizer argsResult hook with
  | .error e => .res (.error e) none
  | .ok _ =>
    match validate_refresh_token a vjwt req, a.tokenSigner with
    | .ok refreshToken, some ts =>
      match create_access_cookie ts refreshToken.custom with
      | .ok accessCookie =>
        .res (.ok (some ⟨some accessCookie, none⟩)) (some refreshToken.custom)
      | .error e => .res (.error e) none
    | .error (.tokenValidation .expired), some ts =>
      if a.renewRefreshTokenAutomatically then
        expectSome (req.cookie a.refreshTokenName) (fun cookieValue =>
          expectSome (extract_claims_unchecked parseUnchecked cookieValue)
            (fun claims =>
              match create_access_cookie ts claims with
              | .ok accessCookie =>
                match create_refresh_cookie ts claims with
                | .ok refreshCookie =>
                  .res (.ok (some ⟨some accessCookie, some refreshCookie⟩))
                    (some claims)
                | .error e => .res (.error e) none
              | .error e => .res (.error e) none))
      else .res (.error (.tokenValidation .expired)) none
    | .ok _, none => .res (.error .noTokenSigner) none
    | .error e, _ => .res (.error e) none

/-- `Authority::verify_service_request` (`src/authority.rs` lines 219-259):
dispatch on access-token validation — success injects the claims and
returns `Ok(None)`; `Expired` or `NoToken` with automatic access renewal
enabled enters the refresh branch; every other outcome returns the error
unchanged. -/
def verify_service_request {C A : Type} (a : Authority C) (vjwt : Vjwt C)
    (argsResult : Except ActixError A) (hook : A → Except ActixError Unit)
    (parseUnchecked : String → Option C) (req : Request) : RunResult C :=
  match validate_access_token a vjwt req with
  | .ok accessToken => .res (.ok none) (some accessToken.custom)
  | .error e =>
    match e, a.renewAccessTokenAutomatically with
    | .tokenValidation .expired, true =>
      refresh_branch a vjwt argsResult hook parseUnchecked req
    | .noToken, true =>
      refresh_branch a vjwt argsResult hook parseUnchecked req
    | _, _ => .res (.error e) none

namespace ErrorsFile

/-- The `AuthError` enum exactly as `src/errors.rs` declares it (this file
of the repository is an earlier snapshot of the error type than the one
`src/authority.rs` matches on): `Internal` and `RefreshAuthorizerDenied`
wrap an `actix_web::Error`, of which only the status code it reports
through `as_response_error().status_code()` matters here. -/
inductive AuthError where
  | internal (wrappedStatus : Nat)
  | noCookie
  | noCookieSigner
  | refreshAuthorizerDenied (wrappedStatus : Nat)
  | tokenCreation
  | tokenParse
  | tokenValidation (e : VErr)
deriving DecidableEq

/-- `<AuthError as ResponseError>::status_code` from `src/errors.rs` lines
90-103, with actix status constants spelled as their numeric codes:
`INTERNAL_SERVER_ERROR` = 500, `BAD_REQUEST` = 400, `UNAUTHORIZED` = 401,
`FOUND` = 302. -/
def status_code : AuthError → Nat
  | .tokenCreation => 500
  | .noCookieSigner => 500
  | .tokenParse => 400
  | .tokenValidation _ => 401
  | .internal s => s
  | .refreshAuthorizerDenied s => s
  | .noCookie => 302

end ErrorsFile

/-- The ordered list of per-source validation results for the enabled
sources, in the precedence order of `Authority::validate_token`: query
parameter, custom header, Authorization header, cookie.  This is the
spec-side description of extraction, to be compared with `validate_token`. -/
def sourceResults {C : Type} (a : Authority C) (vjwt : Vjwt C) (req : Request)
    (tokenName : String) : List (Except AuthError (TokenClaims C)) :=
  (if a.enableQueryTokens then [get_token_from_query vjwt req tokenName] else [])
    ++ (if a.enableHeaderTokens
        then [get_token_from_header_value vjwt req.headers tokenName] else [])
    ++ (if a.enableAuthorizationHeader
        then [get_token_from_authorization_header vjwt req.headers] else [])
    ++ (if a.enableCookieTokens
        then [get_token_from_cookie vjwt req tokenName] else [])

/-- Spec-side: the first source result that is not `NoToken` wins; if every
enabled source is exhausted the outcome is `NoToken`. -/
def firstSettled {C : Type} :
    List (Except AuthError (TokenClaims C)) → Except AuthError (TokenClaims C)
  | [] => .error .noToken
  | r :: rs =>
    match r with
    | .ok v => .ok v
    | .error .noToken => firstSettled rs
    | .error e => .error e

/-! Helper lemmas -/

theorem firstSettled_cons {C : Type} (r : Except AuthError (TokenClaims C))
    (rs : List (Except AuthError (TokenClaims C))) :
    firstSettled (r :: rs) = continueIfNoToken r (firstSettled rs) := by
  cases r with
  | ok v => rfl
  | error e => cases e <;> rfl

theorem firstSettled_nil {C : Type} :
    firstSettled ([] : List (Except AuthError (TokenClaims C))) =
      .error .noToken := rfl

/-! Claim theorems -/

/-- C5: `Authority::validate_token` tries the enabled sources sequentially
in the precedence order query parameter, custom header, Authorization
Bearer header, cookie; the first enabled source whose result is not
`NoToken` determines the outcome (so a higher-precedence present value wins
deterministically), absence at an enabled source falls through, and
exhausting every enabled source yields the `NoToken` error. -/
theorem validate_token_precedence {C : Type} (a : Authority C) (vjwt : Vjwt C)
    (req : Request) (tokenName : String) :
    validate_token a vjwt req tokenName =
      firstSettled (sourceResults a vjwt req tokenName) := by
  unfold validate_token sourceResults
  cases a.enableQueryTokens <;> cases a.enableHeaderTokens <;>
    cases a.enableAuthorizationHeader <;> cases a.enableCookieTokens <;>
    simp [firstSettled_cons, firstSettled_nil]

/-- C7: the expiration check fails with `Expired` exactly when
`now > expiration + leeway`; in particular a properly signed token is still
accepted at `now = expiration + leeway` and rejected at
`now = expiration + leeway + 1`. -/
theorem validate_expiration_boundary (c : Nat) (enc : Nat → Nat) (vk : Nat)
    (issuedAt expiration leeway : Int) :
    (∀ (tc : TokenClaims Nat) (opts : TimeOptions),
      validate_expiration tc opts = .error .expired ↔
        opts.now > tc.expiration + opts.leeway)
    ∧ validate_jwt (signToken vk enc ⟨c, issuedAt, expiration⟩) vk enc
        ⟨expiration + leeway, leeway⟩ = .ok ⟨c, issuedAt, expiration⟩
    ∧ validate_jwt (signToken vk enc ⟨c, issuedAt, expiration⟩) vk enc
        ⟨expiration + leeway + 1, leeway⟩ =
          .error (.tokenValidation .expired) := by
  refine ⟨?_, ?_, ?_⟩
  · intro tc opts
    unfold validate_expiration
    split <;> simp_all
  · unfold validate_jwt verifySig signToken validate_expiration
    simp only [beq_self_eq_true, if_true]
    rw [if_neg (by omega)]
  · unfold validate_jwt verifySig signToken validate_expiration
    simp only [beq_self_eq_true, if_true]
    rw [if_pos (by omega)]

/-- C9 (counterexample): in `src/errors.rs` the missing-token error
(`AuthError::NoCookie`) is mapped to status 302 (`FOUND`, a redirect to
`/login`), not to the unauthorized status 401 the claim requires. -/
theorem status_code_missing_token_cex :
    ErrorsFile.status_code .noCookie = 302 ∧ (302 : Nat) ≠ 401 :=
  ⟨rfl, by decide⟩

/-- C9 (amended): the HTTP status is a single function of the error kind:
invalid-signature and expired-token errors map to 401, structurally
unparseable tokens to 400, signer misconfiguration and token-creation
failures to 500, hook rejections and internal errors carry the wrapped
error's own declared status — but the missing-token error maps to the 302
`FOUND` redirect, not to the unauthorized class. -/
theorem status_code_mapping :
    (∀ e : VErr, ErrorsFile.status_code (.tokenValidation e) = 401)
    ∧ ErrorsFile.status_code .tokenParse = 400
    ∧ ErrorsFile.status_code .tokenCreation = 500
    ∧ ErrorsFile.status_code .noCookieSigner = 500
    ∧ (∀ s : Nat, ErrorsFile.status_code (.refreshAuthorizerDenied s) = s)
    ∧ (∀ s : Nat, ErrorsFile.status_code (.internal s) = s)
    ∧ ErrorsFile.status_code .noCookie = 302 :=
  ⟨fun _ => rfl, rfl, rfl, rfl, fun _ => rfl, fun _ => rfl, rfl⟩

/-- C1: `verify_service_request` dispatches on access-token validation
exactly as the source does: full success injects the custom claims and
returns `Ok(None)`; an `Expired` validation error or `NoToken` with
`renew_access_token_automatically` set enters the refresh branch; any other
error, or renewal disabled, is returned unchanged with nothing injected. -/
theorem verify_service_request_dispatch {C A : Type} (a : Authority C)
    (vjwt : Vjwt C) (argsResult : Except ActixError A)
    (hook : A → Except ActixError Unit) (parseUnchecked : String → Option C)
    (req : Request) :
    (∀ tok, validate_access_token a vjwt req = .ok tok →
      verify_service_request a vjwt argsResult hook parseUnchecked req =
        .res (.ok none) (some tok.custom))
    ∧ (∀ e, validate_access_token a vjwt req = .error e →
        (e = .tokenValidation .expired ∨ e = .noToken) →
        a.renewAccessTokenAutomatically = true →
        verify_service_request a vjwt argsResult hook parseUnchecked req =
          refresh_branch a vjwt argsResult hook parseUnchecked req)
    ∧ (∀ e, validate_access_token a vjwt req = .error e →
        ¬((e = .tokenValidation .expired ∨ e = .noToken) ∧
            a.renewAccessTokenAutomatically = true) →
        verify_service_request a vjwt argsResult hook parseUnchecked req =
          .res (.error e) none) := by
  refine ⟨?_, ?_, ?_⟩
  · intro tok h
    simp [verify_service_request, h]
  · intro e h he hr
    rcases he with rfl | rfl <;> simp [verify_service_request, h, hr]
  · intro e h hn
    unfold verify_service_request
    rw [h]
    cases hren : a.renewAccessTokenAutomatically
    · cases e <;> (try (rename_i v; cases v)) <;> rfl
    · cases e <;> (try (rename_i v; cases v)) <;> simp_all

/-- A concrete token signer over `Nat` claims: names `access_token` /
`refresh_token`, lifetimes 60 and 1800 seconds, signing key 5, clock at
100, leeway 0, identity serializer. -/
def natSigner : TokenSigner Nat :=
  ⟨"access_token", 60, "refresh_token", 1800, 5, ⟨100, 0⟩, id⟩

/-- A concrete authority: default token names, both renewal flags on, only
the cookie source enabled (the crate's defaults), with `natSigner`. -/
def demoAuthority : Authority Nat :=
  ⟨"access_token", true, "refresh_token", true, false, false, false, true,
    some natSigner⟩

/-- A concrete validation capability: the string `good` validates to claims
`7`, everything else is expired. -/
def demoVjwt : Vjwt Nat := fun s =>
  if s == "good" then .ok ⟨7, 100, 160⟩ else .error (.validation .expired)

/-- A request carrying a valid access cookie. -/
def demoReq : Request := ⟨[], [], [("access_token", "good")]⟩

/-- C1 witness: at the concrete request with a valid access cookie, the
dispatch theorem yields `Ok(None)` with claims `7` injected. -/
theorem verify_service_request_dispatch_witness :
    validate_access_token demoAuthority demoVjwt demoReq = .ok ⟨7, 100, 160⟩
    ∧ verify_service_request demoAuthority demoVjwt
        (.ok () : Except ActixError Unit) (fun _ => .ok ()) (fun _ => none)
        demoReq = .res (.ok none) (some 7) :=
  ⟨rfl,
    (verify_service_request_dispatch demoAuthority demoVjwt
      (.ok () : Except ActixError Unit) (fun _ => .ok ()) (fun _ => none)
      demoReq).1 ⟨7, 100, 160⟩ rfl⟩

/-- C2: when the access token is expired or absent, the hook approves, the
refresh token validates, and a token signer is configured,
`verify_service_request` returns `Ok(Some(TokenUpdate))` holding exactly one
new access cookie minted from the refresh token's custom claims (so the
minted token's claims equal the refresh token's claims), no refresh cookie,
and the refresh token's claims are injected. -/
theorem verify_service_request_renews_access {C A : Type} (a : Authority C)
    (vjwt : Vjwt C) (argsResult : Except ActixError A)
    (hook : A → Except ActixError Unit) (parseUnchecked : String → Option C)
    (req : Request) (ts : TokenSigner C) (args : A) (e : AuthError)
    (rt : TokenClaims C) :
    a.tokenSigner = some ts →
    validate_access_token a vjwt req = .error e →
    (e = .tokenValidation .expired ∨ e = .noToken) →
    a.renewAccessTokenAutomatically = true →
    argsResult = .ok args →
    hook args = .ok () →
    validate_refresh_token a vjwt req = .ok rt →
    ∃ ck : Cookie C,
      verify_service_request a vjwt argsResult hook parseUnchecked req =
        .res (.ok (some ⟨some ck, none⟩)) (some rt.custom)
      ∧ ck.token.claims.custom = rt.custom
      ∧ ck.name = ts.accessTokenName := by
  intro hts h he hr ha hh hrt
  refine ⟨⟨ts.accessTokenName,
    signToken ts.signingKey ts.encC
      ⟨rt.custom, ts.timeOptions.now,
        ts.timeOptions.now + ts.accessTokenLifetime⟩⟩, ?_, rfl, rfl⟩
  rcases he with rfl | rfl <;>
    simp [verify_service_request, h, hr, refresh_branch,
      call_refresh_authorizer, ha, hh, hrt, hts, create_access_cookie,
      create_cookie, create_signed_token]

/-- An authority identical to `demoAuthority`. -/
def demoAuthority2 : Authority Nat :=
  ⟨"access_token", true, "refresh_token", true, false, false, false, true,
    some natSigner⟩

/-- A validation capability where `rgood` validates to claims `9` and
everything else is expired. -/
def demoVjwt2 : Vjwt Nat := fun s =>
  if s == "rgood" then .ok ⟨9, 100, 1900⟩ else .error (.validation .expired)

/-- A request with no access cookie and a valid refresh cookie. -/
def demoReq2 : Request := ⟨[], [], [("refresh_token", "rgood")]⟩

/-- C2 witness: with the access token absent and refresh cookie `rgood`
valid with claims `9`, the authority mints one access cookie carrying
claims `9` and no refresh cookie. -/
theorem verify_service_request_renews_access_witness :
    ∃ ck : Cookie Nat,
      verify_service_request demoAuthority2 demoVjwt2
          (.ok () : Except ActixError Unit) (fun _ => .ok ()) (fun _ => none)
          demoReq2 = .res (.ok (some ⟨some ck, none⟩)) (some 9)
      ∧ ck.token.claims.custom = 9
      ∧ ck.name = "access_token" :=
  verify_service_request_renews_access demoAuthority2 demoVjwt2
    (.ok () : Except ActixError Unit) (fun _ => .ok ()) (fun _ => none)
    demoReq2 natSigner () .noToken ⟨9, 100, 1900⟩ rfl rfl (Or.inr rfl) rfl rfl
    rfl rfl

/-- C4: in the refresh branch, a hook rejection makes
`verify_service_request` return `RefreshAuthorizerDenied` wrapping the
hook's reason, with no `TokenUpdate` and nothing injected, for every
validation capability, claims parser and authority configuration —
refresh-token validation and token minting never influence the outcome. -/
theorem verify_service_request_hook_denied {C A : Type} (a : Authority C)
    (vjwt : Vjwt C) (argsResult : Except ActixError A)
    (hook : A → Except ActixError Unit) (parseUnchecked : String → Option C)
    (req : Request) (args : A) (e : AuthError) (reason : ActixError) :
    validate_access_token a vjwt req = .error e →
    (e = .tokenValidation .expired ∨ e = .noToken) →
    a.renewAccessTokenAutomatically = true →
    argsResult = .ok args →
    hook args = .error reason →
    verify_service_request a vjwt argsResult hook parseUnchecked req =
      .res (.error (.refreshAuthorizerDenied reason)) none := by
  intro h he hr ha hh
  rcases he with rfl | rfl <;>
    simp [verify_service_request, h, hr, refresh_branch,
      call_refresh_authorizer, ha, hh]

/-- C4 witness: with the access token absent and a hook that rejects with
reason code 3, the result is `RefreshAuthorizerDenied` of that reason. -/
theorem verify_service_request_hook_denied_witness :
    verify_service_request demoAuthority2 demoVjwt2
        (.ok () : Except ActixError Unit) (fun _ => .error ⟨3⟩)
        (fun _ => none) demoReq2 =
      .res (.error (.refreshAuthorizerDenied ⟨3⟩)) none :=
  verify_service_request_hook_denied demoAuthority2 demoVjwt2
    (.ok () : Except ActixError Unit) (fun _ => .error ⟨3⟩) (fun _ => none)
    demoReq2 () .noToken ⟨3⟩ rfl (Or.inr rfl) rfl rfl rfl

/-- An authority with only the cookie source enabled, both renewal flags
on, and `natSigner` attached. -/
def cexAuthority : Authority Nat :=
  ⟨"access_token", true, "refresh_token", true, false, false, false, true,
    some natSigner⟩

/-- A validation capability under which every token is expired. -/
def cexVjwt : Vjwt Nat := fun _ => .error (.validation .expired)

/-- An unchecked claims parser that reads claims `1` out of the access
cookie value `acv` and claims `2` out of anything else (in particular out
of the refresh cookie value `rcv`). -/
def cexParse : String → Option Nat := fun s =>
  if s == "acv" then some 1 else some 2

/-- A request carrying an (expired) access cookie `acv` and an (expired)
refresh cookie `rcv`. -/
def cexReq : Request :=
  ⟨[], [], [("access_token", "acv"), ("refresh_token", "rcv")]⟩

/-- C3 (counterexample): in the dual-renewal branch the unchecked claims
are extracted from the REFRESH-token cookie, not from the access token as
the claim states: with the access cookie deserializing to claims `1` and
the refresh cookie to claims `2`, both minted tokens and the injected
claims carry `2`, not `1`. -/
theorem verify_service_request_dual_renewal_cex :
    verify_service_request cexAuthority cexVjwt
        (.ok () : Except ActixError Unit) (fun _ => .ok ()) cexParse cexReq =
      .res (.ok (some ⟨some ⟨"access_token", signToken 5 id ⟨2, 100, 160⟩⟩,
        some ⟨"refresh_token", signToken 5 id ⟨2, 100, 1900⟩⟩⟩)) (some 2)
    ∧ cexParse "acv" = some 1
    ∧ (2 : Nat) ≠ 1 :=
  ⟨rfl, rfl, by decide⟩

/-- C3 (amended): when the refresh branch is reached, the hook approves,
the refresh token is itself expired, `renew_refresh_token_automatically` is
set and a signer is configured, `verify_service_request` extracts the
claims from the refresh-token cookie value without re-verifying signature
or expiry, mints both a new access token and a new refresh token from those
claims, and returns both inside the `TokenUpdate`. -/
theorem verify_service_request_dual_renewal {C A : Type} (a : Authority C)
    (vjwt : Vjwt C) (argsResult : Except ActixError A)
    (hook : A → Except ActixError Unit) (parseUnchecked : String → Option C)
    (req : Request) (ts : TokenSigner C) (args : A) (e : AuthError)
    (cookieValue : String) (claims : C) :
    a.tokenSigner = some ts →
    validate_access_token a vjwt req = .error e →
    (e = .tokenValidation .expired ∨ e = .noToken) →
    a.renewAccessTokenAutomatically = true →
    argsResult = .ok args →
    hook args = .ok () →
    validate_refresh_token a vjwt req = .error (.tokenValidation .expired) →
    a.renewRefreshTokenAutomatically = true →
    req.cookie a.refreshTokenName = some cookieValue →
    parseUnchecked cookieValue = some claims →
    ∃ ack rck : Cookie C,
      verify_service_request a vjwt argsResult hook parseUnchecked req =
        .res (.ok (some ⟨some ack, some rck⟩)) (some claims)
      ∧ ack.token.claims.custom = claims
      ∧ rck.token.claims.custom = claims
      ∧ ack.name = ts.accessTokenName
      ∧ rck.name = ts.refreshTokenName := by
  intro hts h he hr ha hh hrt hrr hcv hpc
  refine ⟨⟨ts.accessTokenName,
      signToken ts.signingKey ts.encC
        ⟨claims, ts.timeOptions.now,
          ts.timeOptions.now + ts.accessTokenLifetime⟩⟩,
    ⟨ts.refreshTokenName,
      signToken ts.signingKey ts.encC
        ⟨claims, ts.timeOptions.now,
          ts.timeOptions.now + ts.refreshTokenLifetime⟩⟩,
    ?_, rfl, rfl, rfl, rfl⟩
  rcases he with rfl | rfl <;>
    simp [verify_service_request, h, hr, refresh_branch,
      call_refresh_authorizer, ha, hh, hrt, hts, hrr, hcv, hpc, expectSome,
      extract_claims_unchecked, create_access_cookie, create_refresh_cookie,
      create_cookie, create_signed_token]

/-- C3 witness (for the amended theorem): at the counterexample inputs both
cookies are minted from the refresh cookie's claims `2`. -/
theorem verify_service_request_dual_renewal_witness :
    ∃ ack rck : Cookie Nat,
      verify_service_request cexAuthority cexVjwt
          (.ok () : Except ActixError Unit) (fun _ => .ok ()) cexParse
          cexReq = .res (.ok (some ⟨some ack, some rck⟩)) (some 2)
      ∧ ack.token.claims.custom = 2
      ∧ rck.token.claims.custom = 2
      ∧ ack.name = "access_token"
      ∧ rck.name = "refresh_token" :=
  verify_service_request_dual_renewal cexAuthority cexVjwt
    (.ok () : Except ActixError Unit) (fun _ => .ok ()) cexParse cexReq
    natSigner () (.tokenValidation .expired) "rcv" 2 rfl rfl (Or.inl rfl) rfl
    rfl rfl rfl rfl rfl rfl

/-- C6: signing claims with a lifetime and validating the result with the
matching verifying key, the same time options and the clock still at the
token's issued-at succeeds and returns claims equal to the input. -/
theorem create_signed_token_roundtrip {C : Type} (ts : TokenSigner C) (c : C)
    (lifetime : Nat) (h : 0 ≤ ts.timeOptions.leeway) :
    ∃ tok : Jwt C,
      create_signed_token ts c lifetime = .ok tok
      ∧ validate_jwt tok ts.signingKey ts.encC ts.timeOptions = .ok tok.claims
      ∧ tok.claims.custom = c
      ∧ tok.claims.issuedAt = ts.timeOptions.now := by
  refine ⟨signToken ts.signingKey ts.encC
    ⟨c, ts.timeOptions.now, ts.timeOptions.now + lifetime⟩, rfl, ?_, rfl, rfl⟩
  unfold validate_jwt verifySig signToken validate_expiration
  simp only [beq_self_eq_true, if_true]
  rw [if_neg (by omega)]

/-- C6 witness: the round trip at claims `7`, lifetime 60 and `natSigner`'s
zero leeway. -/
theorem create_signed_token_roundtrip_witness :
    (0 : Int) ≤ natSigner.timeOptions.leeway
    ∧ ∃ tok : Jwt Nat,
        create_signed_token natSigner 7 60 = .ok tok
        ∧ validate_jwt tok natSigner.signingKey natSigner.encC
            natSigner.timeOptions = .ok tok.claims
        ∧ tok.claims.custom = 7
        ∧ tok.claims.issuedAt = natSigner.timeOptions.now :=
  ⟨by decide, create_signed_token_roundtrip natSigner 7 60 (by decide)⟩

/-- C8 (code bug): the Authorization-header source treats a value without
the case-sensitive `Bearer` prefix as an absent token (`NoToken`), but for
a value of the form `Bearer <t>` the string handed to validation is the
trimmed ORIGINAL header value, still carrying the `Bearer` prefix — the
source computes `strip_prefix("Bearer")` only to test it and then validates
`header_value.trim()` instead of the stripped remainder. -/
theorem authorization_header_not_stripped :
    authorization_header_token_value "Bearer abc" = some "Bearer abc"
    ∧ some "Bearer abc" ≠ some "abc"
    ∧ get_token_from_authorization_header
        (fun s => (.ok ⟨s, 0, 0⟩ : Except JwtErr (TokenClaims String)))
        [("authorization", some "Bearer abc")] = .ok ⟨"Bearer abc", 0, 0⟩
    ∧ get_token_from_authorization_header
        (fun s => (.ok ⟨s, 0, 0⟩ : Except JwtErr (TokenClaims String)))
        [("authorization", some "Basic xyz")] = .error .noToken :=
  ⟨rfl, by decide, rfl, rfl⟩

/-- An authority with header tokens enabled alongside cookies, both renewal
flags on and `natSigner` attached. -/
def panicAuthority : Authority Nat :=
  ⟨"access_token", true, "refresh_token", true, true, false, false, true,
    some natSigner⟩

/-- A validation capability under which every token is expired. -/
def panicVjwt : Vjwt Nat := fun _ => .error (.validation .expired)

/-- A request supplying the (expired) access and refresh tokens through
headers only — no cookie named `refresh_token` exists. -/
def panicReq : Request :=
  ⟨[], [("access_token", some "ah"), ("refresh_token", some "rh")], []⟩

/-- Like `panicReq` but with a refresh-token cookie present whose value the
unchecked claims parser cannot parse. -/
def panicReq2 : Request :=
  ⟨[], [("access_token", some "ah"), ("refresh_token", some "rh")],
    [("refresh_token", "junk")]⟩

/-- C10 (code bug): `verify_service_request` panics in the dual-renewal
branch: with the expired refresh token supplied via an enabled header
source and no refresh-token cookie present the `expect` on
`req.cookie(&self.refresh_token_name)` fires, and with the cookie present
but unparseable the `expect` inside `extract_claims_unsafe` fires. -/
theorem verify_service_request_panics_without_refresh_cookie :
    verify_service_request panicAuthority panicVjwt
        (.ok () : Except ActixError Unit) (fun _ => .ok ()) (fun _ => some 0)
        panicReq = .panicked
    ∧ verify_service_request panicAuthority panicVjwt
        (.ok () : Except ActixError Unit) (fun _ => .ok ()) (fun _ => none)
        panicReq2 = .panicked :=
  ⟨rfl, rfl⟩

end ActixJwtAuth
